import Mathlib

/-!
Verification of the portfolio contact-form backend (`server.js`).

The server is a thin Express application over PostgreSQL and nodemailer:

* `POST /submit` validates `{name, email, about?, prompt}` for presence of
  `name`, `email`, `prompt` (JS truthiness: missing or empty string fails),
  inserts one row into `submissions`, sends one notification email, and
  answers `{message: "Form submitted and email sent successfully!"}`;
  any thrown error is caught, logged, and answered with a generic 500 body.
* `GET /submissions` runs `SELECT * FROM submissions ORDER BY
  submission_date DESC` and returns the rows; on error it answers
  `500 {error: err.message}` (note: the raw message, and no server log).
* `initializeDatabase` checks out a pooled client, runs `CREATE TABLE IF NOT
  EXISTS`, releases the client, and catches + logs any error; `client.release()`
  is only reached on the success path.

The embedding below models the database as a list of rows plus a serial
counter, the external store / transport / filesystem as explicit outcome
parameters, and each handler as a pure function from request and outcomes to
its observable effects (state, attempted emails, logs, HTTP response).
-/

namespace PortfolioServer

/-- A row of the `submissions` table
(`id SERIAL, name TEXT NOT NULL, email TEXT NOT NULL, about TEXT,
prompt TEXT NOT NULL, submission_date TIMESTAMP DEFAULT CURRENT_TIMESTAMP`).
`about = none` models SQL NULL; `submission_date` is an abstract timestamp. -/
structure Submission where
  id : Nat
  name : String
  email : String
  about : Option String
  prompt : String
  submission_date : Nat
deriving DecidableEq

/-- The JSON body of a `POST /submit` request; `none` models an absent field
(`undefined` after destructuring `req.body`). -/
structure SubmitRequest where
  name : Option String
  email : Option String
  about : Option String
  prompt : Option String
deriving DecidableEq

/-- JS truthiness test `!x` for a possibly-missing string field:
`undefined` and `""` are falsy, every non-empty string is truthy. -/
def falsy : Option String → Bool
  | none => true
  | some s => s.isEmpty

/-- JS `x || d` for a possibly-missing string, as in `about || 'General'`. -/
def jsOr (x : Option String) (d : String) : String :=
  match x with
  | none => d
  | some s => if s.isEmpty then d else s

/-- Environment configuration used by the mailer
(`EMAIL_USER`, `EMAIL_PASS`, `EMAIL_RECEIVER`). -/
structure Env where
  emailUser : String
  emailPass : String
  emailReceiver : String
deriving DecidableEq

/-- The nodemailer message object built in the `POST /submit` handler.
`fromField` and `toField` stand for the reserved words `from` and `to`. -/
structure MailOptions where
  fromField : String
  toField : String
  replyTo : String
  subject : String
  html : String
deriving DecidableEq

/-- `prompt.replace(/\n/g, '<br>')` on the underlying character list:
every newline character becomes the four characters `<br>`. -/
def replaceNewlinesChars : List Char → List Char
  | [] => []
  | c :: rest =>
    if c = '\n' then '<' :: 'b' :: 'r' :: '>' :: replaceNewlinesChars rest
    else c :: replaceNewlinesChars rest

/-- `prompt.replace(/\n/g, '<br>')`. -/
def replaceNewlines (s : String) : String :=
  ⟨replaceNewlinesChars s.data⟩

/-- The HTML body of the notification email, exactly as the template literal
in the handler builds it. -/
def mailHtml (name email : String) (about : Option String) (prompt : String) : String :=
  "\n                <h2>New Contact Form Submission</h2>\n                <p><strong>Name:</strong> "
    ++ name
    ++ "</p>\n                <p><strong>Email:</strong> "
    ++ email
    ++ "</p>\n                <p><strong>Subject (About):</strong> "
    ++ jsOr about "Not specified"
    ++ "</p>\n                <h3>Details:</h3>\n                <p>"
    ++ replaceNewlines prompt
    ++ "</p>\n            "

/-- The `mailOptions` object of the `POST /submit` handler. -/
def mailOptions (env : Env) (name email : String) (about : Option String)
    (prompt : String) : MailOptions :=
  { fromField := name ++ " <" ++ env.emailUser ++ ">"
  , toField := env.emailReceiver
  , replyTo := email
  , subject := "New Portfolio Inquiry: " ++ jsOr about "General" ++ " from " ++ name
  , html := mailHtml name email about prompt }

/-- A JSON response body: `{message}`, `{error}`, or an array of rows. -/
inductive ResBody where
  | messageObj (message : String)
  | errorObj (error : String)
  | rows (rows : List Submission)
deriving DecidableEq

/-- An HTTP response, as status code plus JSON body. -/
structure HttpResponse where
  status : Nat
  body : ResBody
deriving DecidableEq

/-- The state of the `submissions` table: its rows in insertion order, and
the next value of the `id` serial. -/
structure DbState where
  db : List Submission
  nextId : Nat
deriving DecidableEq

/-- Outcome of a `pool.query` call against the external store: the query
runs, or the store throws an error with message `msg`. -/
inductive StoreOutcome where
  | ok
  | failure (msg : String)
deriving DecidableEq

/-- Outcome of `transporter.sendMail`: a message id on success, or the
transport throws an error with message `msg`. -/
inductive MailOutcome where
  | sent (messageId : String)
  | failure (msg : String)
deriving DecidableEq

/-- The observable effects of one `POST /submit` request: resulting table
state, the mail messages whose send was attempted, the console log lines,
and the HTTP response. -/
structure SubmitEffects where
  state : DbState
  emails : List MailOptions
  logs : List String
  response : HttpResponse
deriving DecidableEq

/-- The `POST /submit` handler. `store` is the outcome of the
`INSERT INTO submissions ... RETURNING id` query, `mail` the outcome of
`transporter.sendMail`, `now` the store's `CURRENT_TIMESTAMP`. Validation
failure returns 400 before either external call; a thrown store or
transport error is caught by the single `try/catch` and answered with the
fixed generic 500 body, the row staying inserted in the second case. -/
def handleSubmit (env : Env) (st : DbState) (req : SubmitRequest)
    (store : StoreOutcome) (mail : MailOutcome) (now : Nat) : SubmitEffects :=
  if falsy req.name || falsy req.email || falsy req.prompt then
    { state := st
    , emails := []
    , logs := []
    , response := { status := 400, body := .messageObj "Missing required fields." } }
  else
    match store with
    | .failure msg =>
      { state := st
      , emails := []
      , logs := ["Submission Error: " ++ msg]
      , response :=
        { status := 500
        , body := .messageObj
            "Failed to send message. Please check server logs for details (Error 500)." } }
    | .ok =>
      match mail with
      | .failure msg =>
        { state :=
          { db := st.db ++
              [{ id := st.nextId
               , name := req.name.getD ""
               , email := req.email.getD ""
               , about := req.about
               , prompt := req.prompt.getD ""
               , submission_date := now }]
          , nextId := st.nextId + 1 }
        , emails := [mailOptions env (req.name.getD "") (req.email.getD "")
            req.about (req.prompt.getD "")]
        , logs := ["Saved submission ID: " ++ toString st.nextId
                  , "Submission Error: " ++ msg]
        , response :=
          { status := 500
          , body := .messageObj
              "Failed to send message. Please check server logs for details (Error 500)." } }
      | .sent mid =>
        { state :=
          { db := st.db ++
              [{ id := st.nextId
               , name := req.name.getD ""
               , email := req.email.getD ""
               , about := req.about
               , prompt := req.prompt.getD ""
               , submission_date := now }]
          , nextId := st.nextId + 1 }
        , emails := [mailOptions env (req.name.getD "") (req.email.getD "")
            req.about (req.prompt.getD "")]
        , logs := ["Saved submission ID: " ++ toString st.nextId
                  , "Email sent successfully! Message ID: " ++ mid]
        , response :=
          { status := 200
          , body := .messageObj "Form submitted and email sent successfully!" } }

/-- Comparison used by `ORDER BY submission_date DESC`: `a` may come before
`b` when `a`'s timestamp is at least `b`'s. -/
def submissionDateDesc (a b : Submission) : Bool :=
  b.submission_date ≤ a.submission_date

/-- Semantics of `SELECT * FROM submissions ORDER BY submission_date DESC`:
all rows, sorted by descending timestamp (stably). -/
def orderByDateDesc (db : List Submission) : List Submission :=
  db.mergeSort submissionDateDesc

/-- The `GET /submissions` handler: response plus console log lines.
On success it answers 200 with the ordered rows; on a store error it
answers `500 {error: err.message}` and logs nothing. -/
def handleGetSubmissions (db : List Submission) (store : StoreOutcome) :
    HttpResponse × List String :=
  match store with
  | .ok => ({ status := 200, body := .rows (orderByDateDesc db) }, [])
  | .failure msg => ({ status := 500, body := .errorObj msg }, [])

/-- Outcome of `pool.connect()`. -/
inductive ConnectOutcome where
  | ok
  | failure (msg : String)
deriving DecidableEq

/-- Outcome of the `CREATE TABLE IF NOT EXISTS submissions ...` query. -/
inductive QueryOutcome where
  | ok
  | failure (msg : String)
deriving DecidableEq

/-- Resource bookkeeping for `initializeDatabase`: whether a pooled client
was checked out, whether `client.release()` ran, and the log lines. -/
structure InitState where
  acquired : Bool
  released : Bool
  logs : List String
deriving DecidableEq

/-- The `try` block of `initializeDatabase`: connect, create the table,
release. The second component is the exception escaping the block, if any.
`client.release()` stands after the query, so a failing query skips it. -/
def initializeDatabaseTry (c : ConnectOutcome) (q : QueryOutcome) :
    InitState × Option String :=
  match c with
  | .failure msg => ({ acquired := false, released := false, logs := [] }, some msg)
  | .ok =>
    match q with
    | .failure msg => ({ acquired := true, released := false, logs := [] }, some msg)
    | .ok =>
      ({ acquired := true
       , released := true
       , logs := ["Connected to PostgreSQL and Submissions table is ready."] }, none)

/-- `initializeDatabase`: the `try` block with its `catch`, which logs the
error and rethrows nothing. The second component is the exception escaping
the whole function, if any. -/
def initializeDatabase (c : ConnectOutcome) (q : QueryOutcome) :
    InitState × Option String :=
  match initializeDatabaseTry c q with
  | (st, none) => (st, none)
  | (st, some msg) =>
    ({ st with
       logs := st.logs ++ ["Error connecting to or initializing PostgreSQL: " ++ msg] }
    , none)

/-- Outcome of reading a static file for `res.sendFile`. -/
inductive FileOutcome where
  | found (content : String)
  | missing
deriving DecidableEq

/-- Body of a static-route response. -/
inductive StaticBody where
  | file (content : String)
  | notFound
deriving DecidableEq

/-- A static-route response. -/
structure StaticResponse where
  status : Nat
  body : StaticBody
deriving DecidableEq

/-- The `GET /` handler (`res.sendFile` of `frontend/index.html`): it takes
no database or store input at all, only the file outcome. -/
def handleRoot (f : FileOutcome) : StaticResponse :=
  match f with
  | .found c => { status := 200, body := .file c }
  | .missing => { status := 404, body := .notFound }

/-- `pat` occurs as a contiguous substring of `s`. -/
def containsSubstr (s pat : String) : Prop :=
  pat.data <:+: s.data

instance (s pat : String) : Decidable (containsSubstr s pat) :=
  List.decidableInfix pat.data s.data

theorem containsSubstr_self (s : String) : containsSubstr s s :=
  ⟨[], [], by simp⟩

theorem containsSubstr_appendL (s t pat : String) (h : containsSubstr s pat) :
    containsSubstr (s ++ t) pat := by
  obtain ⟨u, v, huv⟩ := h
  exact ⟨u, v ++ t.data, by rw [String.data_append, ← huv]; simp⟩

theorem containsSubstr_appendR (s t pat : String) (h : containsSubstr t pat) :
    containsSubstr (s ++ t) pat := by
  obtain ⟨u, v, huv⟩ := h
  exact ⟨s.data ++ u, v, by rw [String.data_append, ← huv]; simp⟩

theorem mailHtml_contains_name (name email : String) (about : Option String)
    (prompt : String) : containsSubstr (mailHtml name email about prompt) name := by
  unfold mailHtml
  repeat first
    | exact containsSubstr_appendR _ _ _ (containsSubstr_self _)
    | apply containsSubstr_appendL

theorem mailHtml_contains_email (name email : String) (about : Option String)
    (prompt : String) : containsSubstr (mailHtml name email about prompt) email := by
  unfold mailHtml
  repeat first
    | exact containsSubstr_appendR _ _ _ (containsSubstr_self _)
    | apply containsSubstr_appendL

theorem mailHtml_contains_about (name email : String) (about : Option String)
    (prompt : String) :
    containsSubstr (mailHtml name email about prompt) (jsOr about "Not specified") := by
  unfold mailHtml
  repeat first
    | exact containsSubstr_appendR _ _ _ (containsSubstr_self _)
    | apply containsSubstr_appendL

theorem mailHtml_contains_prompt (name email : String) (about : Option String)
    (prompt : String) :
    containsSubstr (mailHtml name email about prompt) (replaceNewlines prompt) := by
  unfold mailHtml
  repeat first
    | exact containsSubstr_appendR _ _ _ (containsSubstr_self _)
    | apply containsSubstr_appendL

/-- Fixture: an environment with concrete credentials. -/
def envA : Env :=
  { emailUser := "owner.gmail@gmail.com"
  , emailPass := "app-password"
  , emailReceiver := "owner.inbox@example.com" }

/-- Fixture: the empty table with serial counter 1. -/
def dbEmpty : DbState :=
  { db := [], nextId := 1 }

/-- Fixture: the valid request of the spec scenario. -/
def reqAda : SubmitRequest :=
  { name := some "Ada"
  , email := some "ada@x.com"
  , about := some "Hiring"
  , prompt := some "Let's talk\nThanks" }

/-- Fixture: the invalid request of the spec scenario (empty name). -/
def reqNoName : SubmitRequest :=
  { name := some ""
  , email := some "ada@x.com"
  , about := none
  , prompt := some "hi" }

/-- Fixture: a valid request with no `about` field. -/
def reqNoAbout : SubmitRequest :=
  { name := some "Bo"
  , email := some "bo@x.com"
  , about := none
  , prompt := some "ping" }

/-- C1: a create request with non-empty name, email and prompt, whose insert
and email send both succeed, appends exactly one new row to the table,
attempts exactly one email send, and answers 200 with the body
{message: "Form submitted and email sent successfully!"}. -/
theorem submit_valid_success (env : Env) (st : DbState) (req : SubmitRequest)
    (mid : String) (now : Nat)
    (hn : falsy req.name = false) (he : falsy req.email = false)
    (hp : falsy req.prompt = false) :
    (handleSubmit env st req .ok (.sent mid) now).state.db
      = st.db ++
        [{ id := st.nextId
         , name := req.name.getD ""
         , email := req.email.getD ""
         , about := req.about
         , prompt := req.prompt.getD ""
         , submission_date := now }]
    ∧ (handleSubmit env st req .ok (.sent mid) now).emails.length = 1
    ∧ (handleSubmit env st req .ok (.sent mid) now).response
      = { status := 200
        , body := .messageObj "Form submitted and email sent successfully!" } := by
  simp [handleSubmit, hn, he, hp]

/-- Witness for C1 at the spec scenario request. -/
theorem submit_valid_success_witness :
    (handleSubmit envA dbEmpty reqAda .ok (.sent "msg-1") 7).response
      = { status := 200
        , body := .messageObj "Form submitted and email sent successfully!" } :=
  (submit_valid_success envA dbEmpty reqAda "msg-1" 7 rfl rfl rfl).2.2

/-- C2: past validation, a failing insert means no email attempt, an
unchanged table and a 500 response; a successful insert followed by a
failing send leaves the inserted row in place (no compensating deletion)
and still answers 500. -/
theorem submit_failure_semantics (env : Env) (st : DbState) (req : SubmitRequest)
    (msg : String) (mail : MailOutcome) (now : Nat)
    (hn : falsy req.name = false) (he : falsy req.email = false)
    (hp : falsy req.prompt = false) :
    ((handleSubmit env st req (.failure msg) mail now).emails = []
      ∧ (handleSubmit env st req (.failure msg) mail now).state = st
      ∧ (handleSubmit env st req (.failure msg) mail now).response.status = 500)
    ∧ ((handleSubmit env st req .ok (.failure msg) now).state.db
        = st.db ++
          [{ id := st.nextId
           , name := req.name.getD ""
           , email := req.email.getD ""
           , about := req.about
           , prompt := req.prompt.getD ""
           , submission_date := now }]
      ∧ (handleSubmit env st req .ok (.failure msg) now).response.status = 500) := by
  simp [handleSubmit, hn, he, hp]

/-- Witness for C2 at a concrete valid request and store error. -/
theorem submit_failure_semantics_witness :
    (handleSubmit envA dbEmpty reqAda (.failure "pool exhausted") (.sent "m") 3).emails = []
    ∧ (handleSubmit envA dbEmpty reqAda (.failure "pool exhausted") (.sent "m") 3).state = dbEmpty
    ∧ (handleSubmit envA dbEmpty reqAda (.failure "pool exhausted") (.sent "m") 3).response.status
      = 500 :=
  (submit_failure_semantics envA dbEmpty reqAda "pool exhausted" (.sent "m") 3 rfl rfl rfl).1

/-- C3: a request missing name, email or prompt (absent or empty) answers
400 with {message: "Missing required fields."}, leaves the table unchanged
and attempts no email send, whatever the store and transport would do. -/
theorem submit_missing_field (env : Env) (st : DbState) (req : SubmitRequest)
    (store : StoreOutcome) (mail : MailOutcome) (now : Nat)
    (h : falsy req.name = true ∨ falsy req.email = true ∨ falsy req.prompt = true) :
    (handleSubmit env st req store mail now).response
      = { status := 400, body := .messageObj "Missing required fields." }
    ∧ (handleSubmit env st req store mail now).state = st
    ∧ (handleSubmit env st req store mail now).emails = [] := by
  rcases h with h | h | h <;> simp [handleSubmit, h]

/-- Witness for C3 at the spec scenario request with empty name. -/
theorem submit_missing_field_witness :
    (handleSubmit envA dbEmpty reqNoName .ok (.sent "m") 3).response
      = { status := 400, body := .messageObj "Missing required fields." }
    ∧ (handleSubmit envA dbEmpty reqNoName .ok (.sent "m") 3).state = dbEmpty
    ∧ (handleSubmit envA dbEmpty reqNoName .ok (.sent "m") 3).emails = [] :=
  submit_missing_field envA dbEmpty reqNoName .ok (.sent "m") 3 (Or.inl rfl)

/-- C4: GET /submissions with a reachable store answers 200 with every
persisted row (the result is a permutation of the whole table, so nothing
is dropped or limited), ordered by non-increasing submission_date. -/
theorem submissions_sorted_complete (db : List Submission) :
    (handleGetSubmissions db .ok).1
      = { status := 200, body := .rows (orderByDateDesc db) }
    ∧ (orderByDateDesc db).Perm db
    ∧ (orderByDateDesc db).Pairwise
        (fun a b => b.submission_date ≤ a.submission_date) := by
  unfold orderByDateDesc
  refine ⟨rfl, List.mergeSort_perm db submissionDateDesc, ?_⟩
  have htrans : ∀ a b c : Submission, submissionDateDesc a b = true →
      submissionDateDesc b c = true → submissionDateDesc a c = true := by
    intro a b c hab hbc
    simp only [submissionDateDesc, decide_eq_true_eq] at *
    omega
  have htotal : ∀ a b : Submission,
      (submissionDateDesc a b || submissionDateDesc b a) = true := by
    intro a b
    simp only [submissionDateDesc, Bool.or_eq_true, decide_eq_true_eq]
    omega
  have h := @List.sorted_mergeSort Submission submissionDateDesc htrans htotal db
  exact h.imp fun hab => by simpa [submissionDateDesc] using hab

/-- C5 counterexample: on GET /submissions a store failure's technical
message is sent to the caller verbatim — the body is {error: err.message},
it varies with the error, and nothing at all is logged server-side. -/
theorem submissions_failure_leaks_detail :
    (handleGetSubmissions [] (.failure "connect ECONNREFUSED 127.0.0.1:5432")).1.body
      = .errorObj "connect ECONNREFUSED 127.0.0.1:5432"
    ∧ (handleGetSubmissions [] (.failure "connect ECONNREFUSED 127.0.0.1:5432")).1.body
      ≠ (handleGetSubmissions [] (.failure "password authentication failed")).1.body
    ∧ (handleGetSubmissions [] (.failure "connect ECONNREFUSED 127.0.0.1:5432")).2 = [] := by
  refine ⟨rfl, ?_, rfl⟩
  decide

/-- C5 amended: on POST /submit every storage or delivery failure is
answered with the fixed generic 500 body and the technical message is
logged server-side; on GET /submissions a storage failure is answered
500 with the technical message included as {error: err.message}, and
nothing is logged. -/
theorem failure_response_shapes (env : Env) (st : DbState) (req : SubmitRequest)
    (msg : String) (mail : MailOutcome) (now : Nat) (db : List Submission)
    (hn : falsy req.name = false) (he : falsy req.email = false)
    (hp : falsy req.prompt = false) :
    ((handleSubmit env st req (.failure msg) mail now).response.body
      = .messageObj
          "Failed to send message. Please check server logs for details (Error 500)."
      ∧ ("Submission Error: " ++ msg)
          ∈ (handleSubmit env st req (.failure msg) mail now).logs)
    ∧ ((handleSubmit env st req .ok (.failure msg) now).response.body
      = .messageObj
          "Failed to send message. Please check server logs for details (Error 500)."
      ∧ ("Submission Error: " ++ msg)
          ∈ (handleSubmit env st req .ok (.failure msg) now).logs)
    ∧ handleGetSubmissions db (.failure msg)
      = ({ status := 500, body := .errorObj msg }, []) := by
  simp [handleSubmit, handleGetSubmissions, hn, he, hp]

/-- Witness for the amended C5 at a concrete request and error. -/
theorem failure_response_shapes_witness :
    handleGetSubmissions [] (.failure "query timeout")
      = ({ status := 500, body := .errorObj "query timeout" }, []) :=
  (failure_response_shapes envA dbEmpty reqAda "query timeout" (.sent "m") 3 []
    rfl rfl rfl).2.2

/-- C6: the notification email goes to the fixed operator address, carries
the submitter's email as the reply-to address and the submitter's name as
the display name of the sender field, and its HTML body contains the four
fields with each newline of prompt replaced by a br tag; at the spec
scenario the body contains "Let's talk<br>Thanks". -/
theorem mailOptions_shape (env : Env) (name email : String)
    (about : Option String) (prompt : String) :
    (mailOptions env name email about prompt).toField = env.emailReceiver
    ∧ (mailOptions env name email about prompt).replyTo = email
    ∧ (mailOptions env name email about prompt).fromField
      = name ++ " <" ++ env.emailUser ++ ">"
    ∧ containsSubstr (mailOptions env name email about prompt).html name
    ∧ containsSubstr (mailOptions env name email about prompt).html email
    ∧ containsSubstr (mailOptions env name email about prompt).html
        (jsOr about "Not specified")
    ∧ containsSubstr (mailOptions env name email about prompt).html
        (replaceNewlines prompt)
    ∧ containsSubstr
        (mailOptions envA "Ada" "ada@x.com" (some "Hiring") "Let's talk\nThanks").html
        "Let's talk<br>Thanks" := by
  have hAda := mailHtml_contains_prompt "Ada" "ada@x.com" (some "Hiring")
    "Let's talk\nThanks"
  have hbr : replaceNewlines "Let's talk\nThanks" = "Let's talk<br>Thanks" := by
    decide
  rw [hbr] at hAda
  exact ⟨rfl, rfl, rfl,
    mailHtml_contains_name name email about prompt,
    mailHtml_contains_email name email about prompt,
    mailHtml_contains_about name email about prompt,
    mailHtml_contains_prompt name email about prompt,
    hAda⟩

/-- C7 counterexample: when the table-creation query fails after a
successful connect, initializeDatabase has checked a client out of the
pool and never releases it — the error jumps to the catch block and
client.release() is skipped. -/
theorem initializeDatabase_leaks_client :
    (initializeDatabase .ok (.failure "syntax error near CREATE")).1.acquired = true
    ∧ (initializeDatabase .ok (.failure "syntax error near CREATE")).1.released = false := by
  decide

/-- C7 amended: initializeDatabase checks a client out exactly when connect
succeeds, and releases it only when connect and query both succeed; on the
failing-query path the acquired client is never returned to the pool. (The
insert and list operations go through pool.query and acquire nothing
explicitly.) -/
theorem initializeDatabase_release_iff_success (c : ConnectOutcome) (q : QueryOutcome) :
    ((initializeDatabase c q).1.acquired = true ↔ c = .ok)
    ∧ ((initializeDatabase c q).1.released = true ↔ (c = .ok ∧ q = .ok)) := by
  cases c <;> cases q <;>
    simp [initializeDatabase, initializeDatabaseTry]

/-- C8: a failing initialization is logged and swallowed — no exception
escapes initializeDatabase — and the process keeps serving: the static
root route still returns its file, while the storage-dependent routes
answer 500 once the store errors. -/
theorem init_failure_swallowed (c : ConnectOutcome) (q : QueryOutcome)
    (msg emsg : String) (env : Env) (st : DbState) (req : SubmitRequest)
    (mail : MailOutcome) (now : Nat) (db : List Submission) (content : String)
    (hfail : (initializeDatabaseTry c q).2 = some msg)
    (hn : falsy req.name = false) (he : falsy req.email = false)
    (hp : falsy req.prompt = false) :
    (initializeDatabase c q).2 = none
    ∧ ("Error connecting to or initializing PostgreSQL: " ++ msg)
        ∈ (initializeDatabase c q).1.logs
    ∧ handleRoot (.found content) = { status := 200, body := .file content }
    ∧ (handleGetSubmissions db (.failure emsg)).1.status = 500
    ∧ (handleSubmit env st req (.failure emsg) mail now).response.status = 500 := by
  refine ⟨?_, ?_, rfl, rfl, ?_⟩
  · cases c <;> cases q <;> simp [initializeDatabase, initializeDatabaseTry]
  · cases c <;> cases q <;>
      simp_all [initializeDatabase, initializeDatabaseTry]
  · simp [handleSubmit, hn, he, hp]

/-- Witness for C8 at a concrete failing query. -/
theorem init_failure_swallowed_witness :
    (initializeDatabase .ok (.failure "no pg_hba.conf entry")).2 = none
    ∧ ("Error connecting to or initializing PostgreSQL: " ++ "no pg_hba.conf entry")
        ∈ (initializeDatabase .ok (.failure "no pg_hba.conf entry")).1.logs
    ∧ handleRoot (.found "<html></html>") = { status := 200, body := .file "<html></html>" }
    ∧ (handleGetSubmissions [] (.failure "store down")).1.status = 500
    ∧ (handleSubmit envA dbEmpty reqAda (.failure "store down") (.sent "m") 3).response.status
      = 500 :=
  init_failure_swallowed .ok (.failure "no pg_hba.conf entry") "no pg_hba.conf entry"
    "store down" envA dbEmpty reqAda (.sent "m") 3 [] "<html></html>" rfl rfl rfl rfl

/-- C9: for a valid request whose about is absent or empty, the attempted
email's subject substitutes "General" and its body shows "Not specified",
while the persisted row stores about exactly as supplied — NULL or the
empty string, never a substituted label. -/
theorem submit_empty_about (env : Env) (st : DbState) (req : SubmitRequest)
    (mid : String) (now : Nat)
    (hn : falsy req.name = false) (he : falsy req.email = false)
    (hp : falsy req.prompt = false)
    (ha : req.about = none ∨ req.about = some "") :
    (handleSubmit env st req .ok (.sent mid) now).emails
      = [mailOptions env (req.name.getD "") (req.email.getD "")
          req.about (req.prompt.getD "")]
    ∧ (mailOptions env (req.name.getD "") (req.email.getD "")
        req.about (req.prompt.getD "")).subject
      = "New Portfolio Inquiry: " ++ "General" ++ " from " ++ req.name.getD ""
    ∧ containsSubstr
        (mailOptions env (req.name.getD "") (req.email.getD "")
          req.about (req.prompt.getD "")).html
        "Not specified"
    ∧ (handleSubmit env st req .ok (.sent mid) now).state.db
      = st.db ++
        [{ id := st.nextId
         , name := req.name.getD ""
         , email := req.email.getD ""
         , about := req.about
         , prompt := req.prompt.getD ""
         , submission_date := now }]
    ∧ req.about ≠ some "General"
    ∧ req.about ≠ some "Not specified" := by
  have hj : jsOr req.about "General" = "General" := by
    rcases ha with h | h
    · simp [jsOr, h]
    · simp only [jsOr, h]
      decide
  have hj2 : jsOr req.about "Not specified" = "Not specified" := by
    rcases ha with h | h
    · simp [jsOr, h]
    · simp only [jsOr, h]
      decide
  refine ⟨by simp [handleSubmit, hn, he, hp], ?_, ?_,
    by simp [handleSubmit, hn, he, hp], ?_, ?_⟩
  · simp [mailOptions, hj]
  · have h := mailHtml_contains_about (req.name.getD "") (req.email.getD "")
      req.about (req.prompt.getD "")
    rw [hj2] at h
    exact h
  · rcases ha with h | h <;> simp [h]
  · rcases ha with h | h <;> simp [h]

/-- Witness for C9 at a concrete request with no about field. -/
theorem submit_empty_about_witness :
    (handleSubmit envA dbEmpty reqNoAbout .ok (.sent "m") 3).emails
      = [mailOptions envA (reqNoAbout.name.getD "") (reqNoAbout.email.getD "")
          reqNoAbout.about (reqNoAbout.prompt.getD "")]
    ∧ (mailOptions envA (reqNoAbout.name.getD "") (reqNoAbout.email.getD "")
        reqNoAbout.about (reqNoAbout.prompt.getD "")).subject
      = "New Portfolio Inquiry: " ++ "General" ++ " from " ++ reqNoAbout.name.getD ""
    ∧ containsSubstr
        (mailOptions envA (reqNoAbout.name.getD "") (reqNoAbout.email.getD "")
          reqNoAbout.about (reqNoAbout.prompt.getD "")).html
        "Not specified"
    ∧ (handleSubmit envA dbEmpty reqNoAbout .ok (.sent "m") 3).state.db
      = dbEmpty.db ++
        [{ id := dbEmpty.nextId
         , name := reqNoAbout.name.getD ""
         , email := reqNoAbout.email.getD ""
         , about := reqNoAbout.about
         , prompt := reqNoAbout.prompt.getD ""
         , submission_date := 3 }]
    ∧ reqNoAbout.about ≠ some "General"
    ∧ reqNoAbout.about ≠ some "Not specified" :=
  submit_empty_about envA dbEmpty reqNoAbout "m" 3 rfl rfl rfl (Or.inl rfl)

/-- C10: with no rows persisted and a reachable store, GET /submissions
answers 200 with the empty JSON array (and logs nothing). -/
theorem submissions_empty_array :
    handleGetSubmissions [] .ok = ({ status := 200, body := .rows [] }, []) := by
  simp [handleGetSubmissions, orderByDateDesc]

end PortfolioServer
